import Mathlib

/-!
# mrs_lib: frame-name resolution and transform lookup of `Transformer`

A shallow embedding of `src/src/transformer/transformer.cpp` and of
`SafetyZone::isPointValid` from `src/src/safety_zone/safety_zone.cpp`.

* A `std::string` is the list of its characters.
* A `double` is carried as its 64-bit pattern: the code under study only
  copies doubles and hands them to external functions, it never computes
  with them.
* Member functions take the state they run in and return the state they
  leave: the fields of the object together with the trace of the effects
  performed so far (lock acquisitions, buffer queries, clock reads, logger
  calls, calls of the external geometry functions).
* What lives outside the repository (the tf2 buffer, the clock, the GPS
  conversions) or in the header that is not part of the sources
  (`LATLON_ORIGIN`, `doTransform`) is a field of `Env`.
-/

namespace mrs_lib

/-! ## Strings -/

/-- A `std::string`, one list element per `char`. -/
abbrev Str := List Char

/-- The literal `"uav"`. -/
def uav : Str := "uav".toList

/-- The literal `"/"`. -/
def slash : Str := "/".toList

/-- The literal `"/utm_origin"`. -/
def utm_origin : Str := "/utm_origin".toList

/-- `std::string::substr(pos, len)`. It throws `std::out_of_range` only for
`pos > size()`; every call in the sources has `pos = 0`. -/
def substr (s : Str) (pos len : Nat) : Str := (s.drop pos).take len

/-- The scan of `std::string::find`: `s` is the part of the string that starts
at index `i`; the result is the index of the first occurrence of `needle`. -/
def findFrom : Str → Str → Nat → Option Nat
  | [], needle, i => if needle = [] then some i else none
  | c :: cs, needle, i =>
    if needle.isPrefixOf (c :: cs) then some i else findFrom cs needle (i + 1)

/-- `std::string::find(needle, pos)`: the least index `i ≥ pos` at which
`needle` occurs, `none` standing for `std::string::npos`. -/
def find (s needle : Str) (pos : Nat) : Option Nat :=
  if s.length < pos then none else findFrom (s.drop pos) needle pos

/-! ## Values -/

/-- A `double`, as its 64-bit pattern. -/
structure Double where
  bits : Nat
  deriving DecidableEq, Repr

/-- The literal `0.0`, the value of a default-constructed message field. -/
def Double.zero : Double := ⟨0⟩

/-- The literal `0.001` (IEEE-754 binary64 `0x3F50624DD2F1A9FC`). -/
def Double.milli : Double := ⟨0x3F50624DD2F1A9FC⟩

/-- `ros::Time`: seconds and nanoseconds. -/
structure Time where
  sec : Nat
  nsec : Nat
  deriving DecidableEq, Repr

/-- `ros::Time(0)`, which asks the buffer for the latest available transform;
also the value of a default-constructed `ros::Time`. -/
def Time.zero : Time := ⟨0, 0⟩

/-- `std_msgs::Header`. -/
structure Header where
  seq : Nat
  stamp : Time
  frame_id : Str
  deriving DecidableEq, Repr

/-- `geometry_msgs::Point`. -/
structure Point where
  x : Double
  y : Double
  z : Double
  deriving DecidableEq, Repr

/-- `geometry_msgs::Quaternion`. -/
structure Quaternion where
  x : Double
  y : Double
  z : Double
  w : Double
  deriving DecidableEq, Repr

/-- `geometry_msgs::Pose`. -/
structure Pose where
  position : Point
  orientation : Quaternion
  deriving DecidableEq, Repr

/-- `geometry_msgs::PoseStamped`. -/
structure PoseStamped where
  header : Header
  pose : Pose
  deriving DecidableEq, Repr

/-- `geometry_msgs::Vector3`. -/
structure Vector3 where
  x : Double
  y : Double
  z : Double
  deriving DecidableEq, Repr

/-- `geometry_msgs::Transform`. -/
structure Transform where
  translation : Vector3
  rotation : Quaternion
  deriving DecidableEq, Repr

/-- `geometry_msgs::TransformStamped`, the answer of the tf2 buffer. -/
structure TransformMsg where
  header : Header
  child_frame_id : Str
  transform : Transform
  deriving DecidableEq, Repr

/-- A default-constructed `geometry_msgs::TransformStamped`: zeros and empty
strings. -/
def TransformMsg.empty : TransformMsg :=
  { header := ⟨0, Time.zero, []⟩
    child_frame_id := []
    transform := ⟨⟨Double.zero, Double.zero, Double.zero⟩,
                  ⟨Double.zero, Double.zero, Double.zero, Double.zero⟩⟩ }

/-! ## The `TransformStamped` wrapper -/

/-- `mrs_lib::TransformStamped`. -/
structure TransformStamped where
  from_frame_ : Str
  to_frame_ : Str
  stamp_ : Time
  transform_stamped_ : TransformMsg
  deriving DecidableEq, Repr

/-- `TransformStamped::TransformStamped(from_frame, to_frame, stamp)`: the
payload stays default-constructed. -/
def TransformStamped.mk3 (from_frame to_frame : Str) (stamp : Time) : TransformStamped :=
  { from_frame_ := from_frame
    to_frame_ := to_frame
    stamp_ := stamp
    transform_stamped_ := TransformMsg.empty }

/-- `TransformStamped::TransformStamped(from_frame, to_frame, stamp,
transform_stamped)`. -/
def TransformStamped.mk4 (from_frame to_frame : Str) (stamp : Time)
    (transform_stamped : TransformMsg) : TransformStamped :=
  { from_frame_ := from_frame
    to_frame_ := to_frame
    transform_stamped_ := transform_stamped
    stamp_ := stamp }

/-- `TransformStamped::from()`. -/
def TransformStamped.«from» (t : TransformStamped) : Str := t.from_frame_

/-- `TransformStamped::to()`. -/
def TransformStamped.to (t : TransformStamped) : Str := t.to_frame_

/-- `TransformStamped::stamp()`. -/
def TransformStamped.stamp (t : TransformStamped) : Time := t.stamp_

/-- `TransformStamped::getTransform()`. -/
def TransformStamped.getTransform (t : TransformStamped) : TransformMsg := t.transform_stamped_

/-! ## Effects and the outside world -/

/-- Severity of a logger call. -/
inductive Level where
  | debug
  | warn
  | error
  deriving DecidableEq, Repr

/-- One effect of a member function, in program order. -/
inductive Event where
  /-- `ROS_DEBUG`, `ROS_WARN_THROTTLE` or `ROS_ERROR_THROTTLE`. -/
  | log (level : Level)
  /-- `mutex_current_control_frame_` taken and the registry accessed. -/
  | lockControlFrame
  /-- `mutex_utm_zone_` taken and the registry accessed. -/
  | lockUtmZone
  /-- `tf_buffer_.lookupTransform(target, source, time)` under
  `mutex_tf_buffer_`. -/
  | lookupTransform (target source : Str) (time : Time)
  /-- `ros::Time::now()`. -/
  | now
  /-- `mrs_lib::UTM`. -/
  | UTM
  /-- `mrs_lib::UTMtoLL`. -/
  | UTMtoLL
  /-- `LLtoUTM`. -/
  | LLtoUTM
  /-- `doTransform`. -/
  | doTransform
  deriving DecidableEq, Repr

/-- The zone designator that `LLtoUTM` writes into `utm_zone_`. -/
abbrev Zone := Str

/-- What `transformer.cpp` uses and does not define. The buffer and the clock
belong to a world that moves on its own, so their answers may depend on the
trace of effects up to the question. -/
structure Env where
  /-- The constant `LATLON_ORIGIN` of `transformer.h`. -/
  LATLON_ORIGIN : Str
  /-- The answer of `tf_buffer_.lookupTransform(target, source, time)`; `none`
  when it throws `tf2::TransformException`. -/
  lookupTransform : List Event → Str → Str → Time → Option TransformMsg
  /-- The value of `ros::Time::now()`. -/
  now : List Event → Time
  /-- The function `mrs_lib::UTM(lat, lon, &x, &y)`, returning `(x, y)`. -/
  UTM : Double → Double → Double × Double
  /-- The function `mrs_lib::UTMtoLL(northing, easting, zone, lat, lon)`,
  returning `(lat, lon)`. -/
  UTMtoLL : Double → Double → Zone → Double × Double
  /-- The function `LLtoUTM(lat, lon, northing, easting, zone)`, returning
  `(northing, easting, zone)`. -/
  LLtoUTM : Double → Double → Double × Double × Zone
  /-- The function `doTransform(tf, what)` of `transformer.h`; `none` is
  `std::nullopt`. -/
  doTransform : TransformStamped → PoseStamped → Option PoseStamped

/-! ## The `Transformer` object -/

/-- The data members of `Transformer`. `tf_listener_ptr_` holds the node name
its listener was created with, `none` for a null pointer. -/
structure Transformer where
  is_initialized_ : Bool
  node_name_ : Str
  uav_name_ : Str
  cache_timeout_ : Double
  got_uav_name_ : Bool
  current_control_frame_ : Str
  got_current_control_frame_ : Bool
  got_utm_zone_ : Bool
  utm_zone_ : Zone
  tf_listener_ptr_ : Option Str
  deriving DecidableEq, Repr

/-- An object and the effects performed so far. -/
structure St where
  self : Transformer
  trace : List Event
  deriving DecidableEq, Repr

/-- Record one effect. -/
def St.emit (s : St) (e : Event) : St := { s with trace := s.trace ++ [e] }

/-- Modelled from the spec: the default member initializers of
`transformer.h`, which is not among the sources. The spec has the object
uninitialized when default-constructed and both registries absent at
construction; no vehicle name is configured. The two members without an
initializer (`cache_timeout_`, `utm_zone_`) start with the indeterminate
values `timeout0` and `zone0`. -/
def Transformer.members (timeout0 : Double) (zone0 : Zone) : Transformer :=
  { is_initialized_ := false
    node_name_ := []
    uav_name_ := []
    cache_timeout_ := timeout0
    got_uav_name_ := false
    current_control_frame_ := []
    got_current_control_frame_ := false
    got_utm_zone_ := false
    utm_zone_ := zone0
    tf_listener_ptr_ := none }

/-- `Transformer::Transformer()`: the body is empty. -/
def Transformer.new0 (timeout0 : Double) (zone0 : Zone) : Transformer :=
  Transformer.members timeout0 zone0

/-- `Transformer::Transformer(node_name, uav_name, cache_timeout)`. -/
def Transformer.new3 (node_name uav_name : Str) (cache_timeout : Double)
    (timeout0 : Double) (zone0 : Zone) : Transformer :=
  let this := Transformer.members timeout0 zone0
  let this := { this with node_name_ := node_name }
  let this := { this with uav_name_ := uav_name }
  let this := { this with cache_timeout_ := cache_timeout }
  let this := if uav_name = [] then { this with got_uav_name_ := false }
              else { this with got_uav_name_ := true }
  let this := { this with current_control_frame_ := [] }
  let this := { this with tf_listener_ptr_ := some node_name }
  { this with is_initialized_ := true }

/-- `Transformer::Transformer(node_name, uav_name)`. -/
def Transformer.new2 (node_name uav_name : Str) (timeout0 : Double) (zone0 : Zone) :
    Transformer :=
  Transformer.new3 node_name uav_name Double.milli timeout0 zone0

/-- `Transformer::Transformer(node_name, cache_timeout)`. -/
def Transformer.new2t (node_name : Str) (cache_timeout : Double) (timeout0 : Double)
    (zone0 : Zone) : Transformer :=
  Transformer.new3 node_name [] cache_timeout timeout0 zone0

/-- `Transformer::Transformer(node_name)`. -/
def Transformer.new1 (node_name : Str) (timeout0 : Double) (zone0 : Zone) : Transformer :=
  Transformer.new3 node_name [] Double.milli timeout0 zone0

/-- `Transformer::Transformer(const Transformer& other)`: the new object starts
from the member initializers; the UTM zone registry is not among the members
assigned. -/
def Transformer.copy (other : Transformer) (timeout0 : Double) (zone0 : Zone) : Transformer :=
  let this := Transformer.members timeout0 zone0
  let this := { this with is_initialized_ := other.is_initialized_ }
  let this := { this with node_name_ := other.node_name_ }
  let this := { this with uav_name_ := other.uav_name_ }
  let this := { this with cache_timeout_ := other.cache_timeout_ }
  let this := { this with got_uav_name_ := other.got_uav_name_ }
  let this := { this with current_control_frame_ := other.current_control_frame_ }
  let this := { this with got_current_control_frame_ := other.got_current_control_frame_ }
  if this.is_initialized_ then { this with tf_listener_ptr_ := some this.node_name_ }
  else this

/-- `Transformer::operator=(const Transformer& other)` for `this != &other`
(self-assignment returns `*this` untouched). -/
def Transformer.assign (this other : Transformer) : Transformer :=
  let this := { this with is_initialized_ := other.is_initialized_ }
  let this := { this with node_name_ := other.node_name_ }
  let this := { this with uav_name_ := other.uav_name_ }
  let this := { this with cache_timeout_ := other.cache_timeout_ }
  let this := { this with got_uav_name_ := other.got_uav_name_ }
  let this := { this with current_control_frame_ := other.current_control_frame_ }
  let this := { this with got_current_control_frame_ := other.got_current_control_frame_ }
  if this.is_initialized_ then { this with tf_listener_ptr_ := some this.node_name_ }
  else this

/-! ## Member functions -/

/-- `Transformer::resolveFrameName(in)`. -/
def Transformer.resolveFrameName (inp : Str) (s : St) : Str × St :=
  if inp = [] then
    if s.self.got_current_control_frame_ then
      (s.self.current_control_frame_, s.emit Event.lockControlFrame)
    else
      ([], s.emit (Event.log Level.warn))
  else if substr inp 0 3 ≠ uav then
    if s.self.got_uav_name_ then
      (s.self.uav_name_ ++ slash ++ inp, s)
    else
      (inp, s.emit (Event.log Level.warn))
  else
    (inp, s)

/-- `Transformer::getUAVFramePrefix(in)`. The statement guarded by the first
`if` is the expression `std::string();`: it builds a temporary and discards
it, so both branches of that `if` continue with the search. -/
def Transformer.getUAVFramePrefix (inp : Str) : Str :=
  let _discarded : Str := if substr inp 0 3 ≠ uav then [] else []
  match find inp slash 3 with
  | none => inp
  | some slashpos => substr inp 0 slashpos

/-- `Transformer::setCurrentControlFrame(in)`. -/
def Transformer.setCurrentControlFrame (inp : Str) (s : St) : St :=
  let s := s.emit Event.lockControlFrame
  let s := { s with self := { s.self with current_control_frame_ := inp } }
  { s with self := { s.self with got_current_control_frame_ := true } }

/-- `Transformer::setCurrentLatLon(lat, lon)`. -/
def Transformer.setCurrentLatLon (env : Env) (lat lon : Double) (s : St) : St :=
  let s := s.emit Event.lockUtmZone
  let r := env.LLtoUTM lat lon
  let s := s.emit Event.LLtoUTM
  let s := { s with self := { s.self with utm_zone_ := r.2.2 } }
  { s with self := { s.self with got_utm_zone_ := true } }

/-- `Transformer::getTransform(from_frame, to_frame, time_stamp)`, the overload
returning `std::optional`. -/
def Transformer.getTransform (env : Env) (from_frame to_frame : Str) (time_stamp : Time)
    (s : St) : Option TransformStamped × St :=
  if s.self.is_initialized_ = false then
    (none, s.emit (Event.log Level.error))
  else
    let r1 := Transformer.resolveFrameName to_frame s
    let to_frame_resolved := r1.1
    let r2 := Transformer.resolveFrameName from_frame r1.2
    let from_frame_resolved := r2.1
    let r3 := Transformer.resolveFrameName env.LATLON_ORIGIN r2.2
    let latlon_frame_resolved := r3.1
    let s := r3.2
    if from_frame_resolved = latlon_frame_resolved ∨ to_frame_resolved = latlon_frame_resolved then
      (some (TransformStamped.mk3 from_frame_resolved to_frame_resolved time_stamp), s)
    else
      let first := env.lookupTransform s.trace to_frame_resolved from_frame_resolved time_stamp
      let s := s.emit (Event.lookupTransform to_frame_resolved from_frame_resolved time_stamp)
      match first with
      | some transform =>
        let now := env.now s.trace
        let s := s.emit Event.now
        (some (TransformStamped.mk4 from_frame_resolved to_frame_resolved now transform), s)
      | none =>
        let s := s.emit (Event.log Level.debug)
        let second := env.lookupTransform s.trace to_frame_resolved from_frame_resolved Time.zero
        let s := s.emit (Event.lookupTransform to_frame_resolved from_frame_resolved Time.zero)
        match second with
        | some transform =>
          let now := env.now s.trace
          let s := s.emit Event.now
          (some (TransformStamped.mk4 from_frame_resolved to_frame_resolved now transform), s)
        | none =>
          (none, s.emit (Event.log Level.warn))

/-- `Transformer::getTransform(from_frame, to_frame, time_stamp, output)`, the
overload returning `bool`; the second component is `output` after the call. -/
def Transformer.getTransformBool (env : Env) (from_frame to_frame : Str) (time_stamp : Time)
    (output : TransformStamped) (s : St) : (Bool × TransformStamped) × St :=
  let r := Transformer.getTransform env from_frame to_frame time_stamp s
  match r.1 with
  | some result => ((true, result), r.2)
  | none => ((false, output), r.2)

/-- `Transformer::transformImpl(tf, what)`. -/
def Transformer.transformImpl (env : Env) (tf : TransformStamped) (what : PoseStamped)
    (s : St) : Option PoseStamped × St :=
  let r1 := Transformer.resolveFrameName what.header.frame_id s
  let ret : PoseStamped := { what with header := { what.header with frame_id := r1.1 } }
  let r2 := Transformer.resolveFrameName env.LATLON_ORIGIN r1.2
  let latlon_frame_name := r2.1
  let s := r2.2
  if ret.header.frame_id = tf.to then
    (some ret, s)
  else if tf.«from» = latlon_frame_name then
    let utm := env.UTM ret.pose.position.x ret.pose.position.y
    let s := s.emit Event.UTM
    let uav_prefix := Transformer.getUAVFramePrefix tf.«from»
    let utm_frame_name := uav_prefix ++ utm_origin
    let ret : PoseStamped := { ret with header := { ret.header with frame_id := utm_frame_name } }
    let ret : PoseStamped :=
      { ret with pose := { ret.pose with position := { ret.pose.position with x := utm.1 } } }
    let ret : PoseStamped :=
      { ret with pose := { ret.pose with position := { ret.pose.position with y := utm.2 } } }
    let g := Transformer.getTransform env tf.«from» tf.to what.header.stamp s
    match g.1 with
    | none => (none, g.2)
    | some utm_origin_to_end_tf => (env.doTransform utm_origin_to_end_tf ret, g.2.emit Event.doTransform)
  else if tf.to = latlon_frame_name then
    if s.self.got_utm_zone_ = false then
      (none, s.emit (Event.log Level.warn))
    else
      let g := Transformer.getTransform env tf.«from» tf.to what.header.stamp s
      match g.1 with
      | none => (none, g.2)
      | some start_to_utm_origin_tf =>
        let pose_opt := env.doTransform start_to_utm_origin_tf ret
        let s := g.2.emit Event.doTransform
        match pose_opt with
        | none => (none, s)
        | some _ =>
          let s := s.emit Event.lockUtmZone
          let ll := env.UTMtoLL what.pose.position.y what.pose.position.x s.self.utm_zone_
          let s := s.emit Event.UTMtoLL
          let ret : PoseStamped :=
            { ret with pose := { ret.pose with position := { ret.pose.position with x := ll.1 } } }
          let ret : PoseStamped :=
            { ret with pose := { ret.pose with position := { ret.pose.position with y := ll.2 } } }
          (some ret, s)
  else
    (env.doTransform tf ret, s.emit Event.doTransform)

/-! ## Histories of an object -/

/-- A call of one of the two setters. -/
inductive Call where
  | setCurrentControlFrame (inp : Str)
  | setCurrentLatLon (lat lon : Double)
  deriving DecidableEq, Repr

/-- Perform one setter call. -/
def Call.run (env : Env) : Call → St → St
  | Call.setCurrentControlFrame inp, s => Transformer.setCurrentControlFrame inp s
  | Call.setCurrentLatLon lat lon, s => Transformer.setCurrentLatLon env lat lon s

/-- Perform setter calls, the head of the list first. -/
def runCalls (env : Env) : List Call → St → St
  | [], s => s
  | c :: cs, s => runCalls env cs (Call.run env c s)

/-- How an object came to be: default-constructed, or constructed with a node
name, a vehicle name (empty for the constructors without one) and a cache
timeout. -/
inductive Construction where
  | default
  | named (node_name uav_name : Str) (cache_timeout : Double)
  deriving DecidableEq, Repr

/-- The freshly constructed object, with an empty trace. -/
def Construction.build (timeout0 : Double) (zone0 : Zone) : Construction → St
  | Construction.default => ⟨Transformer.new0 timeout0 zone0, []⟩
  | Construction.named node_name uav_name cache_timeout =>
    ⟨Transformer.new3 node_name uav_name cache_timeout timeout0 zone0, []⟩

/-- The same request issued `n` times in a row: the results in order, and the
final state. -/
def repeatTransformImpl (env : Env) (tf : TransformStamped) (what : PoseStamped) :
    Nat → St → List (Option PoseStamped) × St
  | 0, s => ([], s)
  | n + 1, s =>
    let r := Transformer.transformImpl env tf what s
    let rest := repeatTransformImpl env tf what n r.2
    (r.1 :: rest.1, rest.2)

/-! ## Safety zone -/

/-- `SafetyZone`: the outer border, the inner obstacles and the point
obstacles, over any types of polygon and point obstacle. -/
structure SafetyZone (Polygon PointObstacle : Type) where
  outerBorder : Polygon
  innerObstacles : List Polygon
  pointObstacles : List PointObstacle

/-- The loop `for (auto& elem : obstacles) if (elem.isPointInside(px, py))
return false;`: `true` when the loop finds a hit. -/
def anyInside {α : Type} (isPointInside : α → Double → Double → Bool) (px py : Double) :
    List α → Bool
  | [] => false
  | elem :: rest => if isPointInside elem px py then true else anyInside isPointInside px py rest

/-- `SafetyZone::isPointValid(px, py)`; the two `isPointInside` member
functions are arguments. -/
def SafetyZone.isPointValid {Polygon PointObstacle : Type}
    (polygonInside : Polygon → Double → Double → Bool)
    (obstacleInside : PointObstacle → Double → Double → Bool)
    (z : SafetyZone Polygon PointObstacle) (px py : Double) : Bool :=
  if !polygonInside z.outerBorder px py then false
  else if anyInside polygonInside px py z.innerObstacles then false
  else if anyInside obstacleInside px py z.pointObstacles then false
  else true

/-! ## Reading a trace -/

/-- Whether an effect is a query of the tf2 buffer. -/
def Event.isLookup : Event → Bool
  | Event.lookupTransform _ _ _ => true
  | _ => false

/-- Whether an effect is a call of one of the GPS conversions. -/
def Event.isConversion : Event → Bool
  | Event.UTM => true
  | Event.UTMtoLL => true
  | Event.LLtoUTM => true
  | _ => false

/-- The buffer queries of a trace, in order. -/
def lookups (es : List Event) : List Event := es.filter Event.isLookup

/-- The GPS conversions of a trace, in order. -/
def conversions (es : List Event) : List Event := es.filter Event.isConversion

/-- The state in which `getTransform` finds itself after the three calls of
`resolveFrameName` it starts with: target, source and geodetic frame, in this
order. -/
def resolutionState (env : Env) (from_frame to_frame : Str) (s : St) : St :=
  (Transformer.resolveFrameName env.LATLON_ORIGIN
    (Transformer.resolveFrameName from_frame (Transformer.resolveFrameName to_frame s).2).2).2

/-! ## The resolver as the spec words it -/

/-- The vehicle namespace a construction configures: none for the default
constructor and for an empty vehicle name. -/
def Construction.vehicleNamespace : Construction → Option Str
  | Construction.default => none
  | Construction.named _ uav_name _ => if uav_name = [] then none else some uav_name

/-- The value given to the most recent `setCurrentControlFrame` call of a
history, `none` when there was no such call. -/
def lastControlFrame : List Call → Option Str
  | [] => none
  | Call.setCurrentControlFrame inp :: cs =>
    match lastControlFrame cs with
    | some later => some later
    | none => some inp
  | Call.setCurrentLatLon _ _ :: cs => lastControlFrame cs

/-- The reference resolver of the spec: an empty name is the control frame
when one is present and the empty string otherwise; a non-empty name that
does not begin with the namespace token gets `namespace + "/"` prepended when
a vehicle namespace is configured; every other name is returned unchanged. -/
def resolveSpec (vehicleNamespace controlFrame : Option Str) (name : Str) : Str :=
  if name = [] then
    match controlFrame with
    | some frame => frame
    | none => []
  else if ¬ uav <+: name then
    match vehicleNamespace with
    | some ns => ns ++ slash ++ name
    | none => name
  else name

/-! ## Concrete scenarios -/

/-- An outside world with `LATLON_ORIGIN = "latlon_origin"`, an empty buffer
(every query throws), a clock that stands at 100 s, and conversions that hand
their arguments back. -/
def demoEnv : Env :=
  { LATLON_ORIGIN := "latlon_origin".toList
    lookupTransform := fun _ _ _ _ => none
    now := fun _ => ⟨100, 0⟩
    UTM := fun lat lon => (lat, lon)
    UTMtoLL := fun northing easting _ => (northing, easting)
    LLtoUTM := fun lat lon => (lat, lon, "33U".toList)
    doTransform := fun _ what => some what }

/-- The world of `demoEnv` with a buffer that knows one transform, from
`uav1/fcu` to `uav1/world`, at the latest time only. -/
def demoEnvLatest : Env :=
  { demoEnv with
    lookupTransform := fun _ target source time =>
      if target = "uav1/world".toList ∧ source = "uav1/fcu".toList ∧ time = Time.zero then
        some { TransformMsg.empty with child_frame_id := source }
      else none }

/-- The object constructed as `Transformer("node", "uav1")` after
`setCurrentControlFrame("uav1/fcu")`. -/
def demoState : St :=
  runCalls demoEnv [Call.setCurrentControlFrame "uav1/fcu".toList]
    ((Construction.named "node".toList "uav1".toList Double.milli).build Double.zero [])

/-- The object constructed as `Transformer("node", "drone1")`, with no
control frame set. -/
def droneState : St :=
  (Construction.named "node".toList "drone1".toList Double.milli).build Double.zero []

/-- The object constructed as `Transformer("node", "uav1")` after
`setCurrentControlFrame("fcu")`. -/
def bareControlState : St :=
  runCalls demoEnv [Call.setCurrentControlFrame "fcu".toList]
    ((Construction.named "node".toList "uav1".toList Double.milli).build Double.zero [])

/-- A default-constructed object. -/
def defaultState : St := Construction.default.build Double.zero []

/-- A pose in frame `world`, stamped 7 s, at position (1, 2, 3). -/
def demoPose : PoseStamped :=
  { header := ⟨5, ⟨7, 0⟩, "world".toList⟩
    pose := ⟨⟨⟨1⟩, ⟨2⟩, ⟨3⟩⟩, ⟨⟨0⟩, ⟨0⟩, ⟨0⟩, ⟨4⟩⟩⟩ }

/-- A transform from `uav1/fcu` to `uav1/world`. -/
def demoTf : TransformStamped :=
  TransformStamped.mk3 "uav1/fcu".toList "uav1/world".toList ⟨7, 0⟩

/-- A transform from `uav1/fcu` to the geodetic frame `uav1/latlon_origin`. -/
def demoTfToLatLon : TransformStamped :=
  TransformStamped.mk3 "uav1/fcu".toList "uav1/latlon_origin".toList ⟨7, 0⟩

/-- The object constructed as `Transformer("node", "uav1")` after
`setCurrentControlFrame("uav1/fcu")` and `setCurrentLatLon(50, 14)`, which in
the world of `demoEnv` stores the zone `33U`. -/
def zoneState : St :=
  runCalls demoEnv
    [Call.setCurrentControlFrame "uav1/fcu".toList, Call.setCurrentLatLon ⟨50⟩ ⟨14⟩]
    ((Construction.named "node".toList "uav1".toList Double.milli).build Double.zero [])

/-- A pose in the geodetic frame `latlon_origin`, stamped 7 s, at position
(1, 2, 3). -/
def latlonPose : PoseStamped :=
  { header := ⟨5, ⟨7, 0⟩, "latlon_origin".toList⟩
    pose := ⟨⟨⟨1⟩, ⟨2⟩, ⟨3⟩⟩, ⟨⟨0⟩, ⟨0⟩, ⟨0⟩, ⟨4⟩⟩⟩ }

/-- A transform from the geodetic frame `uav1/latlon_origin` to `uav1/fcu`. -/
def demoTfFromLatLon : TransformStamped :=
  TransformStamped.mk3 "uav1/latlon_origin".toList "uav1/fcu".toList ⟨7, 0⟩

/-- The world of `demoEnv` with a buffer that answers every query, with a
transform whose child frame is the source asked for. -/
def demoEnvFull : Env :=
  { demoEnv with
    lookupTransform := fun _ _ source _ =>
      some { TransformMsg.empty with child_frame_id := source } }

/-- A safety zone over intervals of bit patterns: a polygon `(lo, hi)` holds
the point when `lo ≤ px ≤ hi`, a point obstacle `c` when `px = c`. The border
is `(0, 10)`, the one inner obstacle `(4, 5)`, the one point obstacle `8`. -/
def demoZone : SafetyZone (Nat × Nat) Nat :=
  { outerBorder := (0, 10)
    innerObstacles := [(4, 5)]
    pointObstacles := [8] }

/-- The `isPointInside` of the interval polygons of `demoZone`. -/
def intervalInside (p : Nat × Nat) (px _py : Double) : Bool :=
  decide (p.1 ≤ px.bits ∧ px.bits ≤ p.2)

/-- The `isPointInside` of the point obstacles of `demoZone`. -/
def pointInside (c : Nat) (px _py : Double) : Bool := decide (px.bits = c)

/-! ## Lemmas on strings -/

theorem substr_uav_iff (n : Str) : substr n 0 3 = uav ↔ uav <+: n := by
  unfold substr uav
  simp only [List.drop_zero]
  rw [List.prefix_iff_eq_take]
  exact ⟨fun h => h.symm, fun h => h.symm⟩

/-! ## Lemmas on `resolveFrameName` -/

theorem resolveFrameName_self (n : Str) (s : St) :
    (Transformer.resolveFrameName n s).2.self = s.self := by
  unfold Transformer.resolveFrameName St.emit
  split_ifs <;> rfl

theorem resolveFrameName_fst (n : Str) (s s' : St) (h : s.self = s'.self) :
    (Transformer.resolveFrameName n s).1 = (Transformer.resolveFrameName n s').1 := by
  unfold Transformer.resolveFrameName
  rw [h]
  split_ifs <;> rfl

theorem lookups_append (xs ys : List Event) : lookups (xs ++ ys) = lookups xs ++ lookups ys := by
  simp [lookups]

theorem conversions_append (xs ys : List Event) :
    conversions (xs ++ ys) = conversions xs ++ conversions ys := by
  simp [conversions]

theorem resolveFrameName_lookups (n : Str) (s : St) :
    lookups (Transformer.resolveFrameName n s).2.trace = lookups s.trace := by
  unfold Transformer.resolveFrameName St.emit
  split_ifs <;> simp [lookups, Event.isLookup]

theorem resolveFrameName_conversions (n : Str) (s : St) :
    conversions (Transformer.resolveFrameName n s).2.trace = conversions s.trace := by
  unfold Transformer.resolveFrameName St.emit
  split_ifs <;> simp [conversions, Event.isConversion]

/-! ## C1: identity -/

/-- C1. When the frame label of the pose resolves to `tf.to()`,
`transformImpl` returns the pose with that label and with sequence number,
timestamp, position and orientation untouched; the object is left as it was
and no buffer query is added to the trace. -/
theorem transformImpl_identity (env : Env) (s : St) (tf : TransformStamped) (what : PoseStamped)
    (h : (Transformer.resolveFrameName what.header.frame_id s).1 = tf.to) :
    ∃ ret, (Transformer.transformImpl env tf what s).1 = some ret ∧
      ret.pose.position = what.pose.position ∧
      ret.pose.orientation = what.pose.orientation ∧
      ret.header.stamp = what.header.stamp ∧
      ret.header.seq = what.header.seq ∧
      ret.header.frame_id = tf.to ∧
      (Transformer.transformImpl env tf what s).2.self = s.self ∧
      lookups (Transformer.transformImpl env tf what s).2.trace = lookups s.trace := by
  refine ⟨{ what with header := { what.header with frame_id := tf.to } }, ?_, rfl, rfl, rfl, rfl,
    rfl, ?_, ?_⟩
  · unfold Transformer.transformImpl
    simp only [h, if_true]
  · unfold Transformer.transformImpl
    simp only [h, if_true, resolveFrameName_self]
  · unfold Transformer.transformImpl
    simp only [h, if_true, resolveFrameName_lookups]

/-- The identity case at work: the pose in `world` and a transform into
`uav1/world`, on the `uav1` object. -/
theorem transformImpl_identity_witness :
    (Transformer.resolveFrameName demoPose.header.frame_id demoState).1 = demoTf.to ∧
      ∃ ret, (Transformer.transformImpl demoEnv demoTf demoPose demoState).1 = some ret ∧
        ret.pose.position = demoPose.pose.position ∧
        ret.pose.orientation = demoPose.pose.orientation ∧
        ret.header.stamp = demoPose.header.stamp ∧
        ret.header.seq = demoPose.header.seq ∧
        ret.header.frame_id = demoTf.to ∧
        (Transformer.transformImpl demoEnv demoTf demoPose demoState).2.self = demoState.self ∧
        lookups (Transformer.transformImpl demoEnv demoTf demoPose demoState).2.trace =
          lookups demoState.trace :=
  ⟨by decide, transformImpl_identity demoEnv demoState demoTf demoPose (by decide)⟩

/-! ## Lemmas on histories -/

theorem runCalls_vehicle (env : Env) (calls : List Call) (s : St) :
    (runCalls env calls s).self.uav_name_ = s.self.uav_name_ ∧
      (runCalls env calls s).self.got_uav_name_ = s.self.got_uav_name_ := by
  induction calls generalizing s with
  | nil => exact ⟨rfl, rfl⟩
  | cons c cs ih =>
    cases c with
    | setCurrentControlFrame inp =>
      have h := ih (Transformer.setCurrentControlFrame inp s)
      simpa [runCalls, Call.run, Transformer.setCurrentControlFrame, St.emit] using h
    | setCurrentLatLon lat lon =>
      have h := ih (Transformer.setCurrentLatLon env lat lon s)
      simpa [runCalls, Call.run, Transformer.setCurrentLatLon, St.emit] using h

theorem runCalls_control (env : Env) (calls : List Call) (s : St) :
    (runCalls env calls s).self.got_current_control_frame_ =
        ((lastControlFrame calls).isSome || s.self.got_current_control_frame_) ∧
      (runCalls env calls s).self.current_control_frame_ =
        (lastControlFrame calls).getD s.self.current_control_frame_ := by
  induction calls generalizing s with
  | nil => simp [runCalls, lastControlFrame]
  | cons c cs ih =>
    cases c with
    | setCurrentControlFrame inp =>
      have h := ih (Transformer.setCurrentControlFrame inp s)
      simp only [runCalls, Call.run, lastControlFrame]
      cases hl : lastControlFrame cs with
      | none =>
        rw [hl] at h
        simpa [Transformer.setCurrentControlFrame, St.emit] using h
      | some later =>
        rw [hl] at h
        simpa [Transformer.setCurrentControlFrame, St.emit] using h
    | setCurrentLatLon lat lon =>
      have h := ih (Transformer.setCurrentLatLon env lat lon s)
      simpa [runCalls, Call.run, lastControlFrame, Transformer.setCurrentLatLon, St.emit] using h

theorem lastControlFrame_append_set (calls : List Call) (inp : Str) :
    lastControlFrame (calls ++ [Call.setCurrentControlFrame inp]) = some inp := by
  induction calls with
  | nil => rfl
  | cons c cs ih =>
    cases c with
    | setCurrentControlFrame first => simp [lastControlFrame, ih]
    | setCurrentLatLon lat lon => simpa [lastControlFrame] using ih

theorem resolveFrameName_value (n : Str) (s : St) :
    (Transformer.resolveFrameName n s).1 =
      if n = [] then
        if s.self.got_current_control_frame_ = true then s.self.current_control_frame_ else []
      else if ¬ uav <+: n then
        if s.self.got_uav_name_ = true then s.self.uav_name_ ++ slash ++ n else n
      else n := by
  unfold Transformer.resolveFrameName
  simp only [ne_eq, substr_uav_iff]
  split_ifs <;> rfl

theorem build_registries (timeout0 : Double) (zone0 : Zone) (c : Construction) :
    (c.build timeout0 zone0).self.got_current_control_frame_ = false ∧
      (c.build timeout0 zone0).self.got_utm_zone_ = false ∧
      (c.build timeout0 zone0).self.got_uav_name_ = c.vehicleNamespace.isSome ∧
      (c.build timeout0 zone0).self.uav_name_ = c.vehicleNamespace.getD [] := by
  cases c with
  | default => simp [Construction.build, Transformer.new0, Transformer.members,
      Construction.vehicleNamespace]
  | named node_name uav_name cache_timeout =>
    by_cases hu : uav_name = []
    · simp [Construction.build, Transformer.new3, Transformer.members,
        Construction.vehicleNamespace, hu]
    · simp [Construction.build, Transformer.new3, Transformer.members,
        Construction.vehicleNamespace, hu]

theorem resolveFrameName_history (env : Env) (timeout0 : Double) (zone0 : Zone)
    (c : Construction) (calls : List Call) (name : Str) :
    (Transformer.resolveFrameName name (runCalls env calls (c.build timeout0 zone0))).1 =
      resolveSpec c.vehicleNamespace (lastControlFrame calls) name := by
  obtain ⟨hg, -, hu, hn⟩ := build_registries timeout0 zone0 c
  obtain ⟨h1, h2⟩ := runCalls_vehicle env calls (c.build timeout0 zone0)
  obtain ⟨h3, h4⟩ := runCalls_control env calls (c.build timeout0 zone0)
  rw [resolveFrameName_value, h1, h2, h3, h4, hg, hu, hn]
  unfold resolveSpec
  cases hl : lastControlFrame calls <;> cases hv : c.vehicleNamespace <;> simp

/-! ## C2: the resolver refines the spec -/

/-- C2. On the object reached from any construction by any sequence of setter
calls, `resolveFrameName` returns what the reference resolver of the spec
returns for the configured vehicle namespace and the most recent control
frame; with vehicle name `uav1` and control frame `uav1/fcu` the empty name,
`world` and `body` resolve to `uav1/fcu`, `uav1/world` and `uav1/body`. -/
theorem resolveFrameName_refines_spec (env : Env) (timeout0 : Double) (zone0 : Zone)
    (c : Construction) (calls : List Call) (name node_name : Str) (cache_timeout : Double) :
    (Transformer.resolveFrameName name (runCalls env calls (c.build timeout0 zone0))).1 =
        resolveSpec c.vehicleNamespace (lastControlFrame calls) name ∧
      (Transformer.resolveFrameName []
          (runCalls env (calls ++ [Call.setCurrentControlFrame "uav1/fcu".toList])
            ((Construction.named node_name "uav1".toList cache_timeout).build timeout0 zone0))).1 =
        "uav1/fcu".toList ∧
      (Transformer.resolveFrameName "world".toList
          (runCalls env (calls ++ [Call.setCurrentControlFrame "uav1/fcu".toList])
            ((Construction.named node_name "uav1".toList cache_timeout).build timeout0 zone0))).1 =
        "uav1/world".toList ∧
      (Transformer.resolveFrameName "body".toList
          (runCalls env (calls ++ [Call.setCurrentControlFrame "uav1/fcu".toList])
            ((Construction.named node_name "uav1".toList cache_timeout).build timeout0 zone0))).1 =
        "uav1/body".toList := by
  refine ⟨resolveFrameName_history env timeout0 zone0 c calls name, ?_, ?_, ?_⟩
  · rw [resolveFrameName_history, lastControlFrame_append_set]
    rfl
  · rw [resolveFrameName_history, lastControlFrame_append_set]
    rfl
  · rw [resolveFrameName_history, lastControlFrame_append_set]
    rfl

/-! ## C3: when resolution is idempotent -/

theorem append_slash_ne (a n : Str) : a ++ slash ++ n ≠ n := by
  intro h
  have hl := congrArg List.length h
  simp [slash] at hl
  omega

theorem append_slash_ne_nil (a n : Str) : a ++ slash ++ n ≠ [] := by
  simp [slash]

theorem uav_prefix_append (a n : Str) (h : uav <+: a) : uav <+: a ++ slash ++ n :=
  h.trans ((List.prefix_append a slash).trans (List.prefix_append (a ++ slash) n))

theorem uav_prefix_of_append_slash (a n : Str) (h : uav <+: a ++ slash ++ n) : uav <+: a := by
  have hu : uav = ['u', 'a', 'v'] := rfl
  have hs : slash = ['/'] := rfl
  rw [hu, hs] at h
  rw [hu]
  rcases a with _ | ⟨c1, _ | ⟨c2, _ | ⟨c3, rest⟩⟩⟩
  · simp [List.cons_prefix_cons] at h
  · simp [List.cons_prefix_cons] at h
  · simp [List.cons_prefix_cons] at h
  · simp only [List.cons_append, List.cons_prefix_cons] at h
    obtain ⟨h1, h2, h3, -⟩ := h
    subst h1 h2 h3
    simp [List.cons_prefix_cons]

/-- C3, as stated, fails. With vehicle name `drone1` the name `world` resolves
to `drone1/world`, and that name, which is the vehicle name followed by `/`
and `world`, resolves to `drone1/drone1/world`. With vehicle name `uav1` and
control frame `fcu` the empty name resolves to `fcu`, which resolves to
`uav1/fcu`. -/
theorem resolveFrameName_not_idempotent :
    (Transformer.resolveFrameName "world".toList droneState).1 = "drone1/world".toList ∧
      (Transformer.resolveFrameName "drone1/world".toList
          (Transformer.resolveFrameName "world".toList droneState).2).1 =
        "drone1/drone1/world".toList ∧
      (Transformer.resolveFrameName [] bareControlState).1 = "fcu".toList ∧
      (Transformer.resolveFrameName "fcu".toList
          (Transformer.resolveFrameName [] bareControlState).2).1 = "uav1/fcu".toList ∧
      ¬ ∀ (s : St) (n : Str),
          (Transformer.resolveFrameName (Transformer.resolveFrameName n s).1
              (Transformer.resolveFrameName n s).2).1 =
            (Transformer.resolveFrameName n s).1 := by
  refine ⟨by decide, by decide, by decide, by decide, ?_⟩
  intro h
  exact absurd (h droneState "world".toList) (by decide)

/-- C3, amended. Resolving twice gives the same as resolving once for every
name exactly when (a) no vehicle name is configured or the vehicle name begins
with `uav`, and (b) no control frame is set, or no vehicle name is
configured, or the control frame is empty or begins with `uav`. When the
vehicle name begins with `uav`, a name made of the vehicle name, `/` and
anything is returned unchanged. -/
theorem resolveFrameName_idempotent_iff (s : St) :
    ((∀ n : Str,
          (Transformer.resolveFrameName (Transformer.resolveFrameName n s).1
              (Transformer.resolveFrameName n s).2).1 =
            (Transformer.resolveFrameName n s).1) ↔
        ((s.self.got_uav_name_ = true → uav <+: s.self.uav_name_) ∧
          (s.self.got_current_control_frame_ = true → s.self.got_uav_name_ = true →
            s.self.current_control_frame_ = [] ∨ uav <+: s.self.current_control_frame_))) ∧
      ∀ x : Str, uav <+: s.self.uav_name_ →
        (Transformer.resolveFrameName (s.self.uav_name_ ++ slash ++ x) s).1 =
          s.self.uav_name_ ++ slash ++ x := by
  refine ⟨⟨?_, ?_⟩, ?_⟩
  · intro h
    constructor
    · intro hu
      have h1 := h ['x']
      rw [resolveFrameName_fst _ _ s (resolveFrameName_self _ s)] at h1
      have hx : ¬ uav <+: ['x'] := by decide
      have hv : (Transformer.resolveFrameName ['x'] s).1 = s.self.uav_name_ ++ slash ++ ['x'] := by
        rw [resolveFrameName_value]
        simp [hu, hx]
      rw [hv, resolveFrameName_value] at h1
      by_contra hp
      have hp2 : ¬ uav <+: s.self.uav_name_ ++ slash ++ ['x'] :=
        fun hq => hp (uav_prefix_of_append_slash _ _ hq)
      simp only [append_slash_ne_nil, if_false, hp2, not_false_eq_true, if_true, hu] at h1
      exact append_slash_ne _ _ h1
    · intro hg hu
      have h1 := h []
      rw [resolveFrameName_fst _ _ s (resolveFrameName_self _ s)] at h1
      have hv : (Transformer.resolveFrameName [] s).1 = s.self.current_control_frame_ := by
        rw [resolveFrameName_value]
        simp [hg]
      rw [hv, resolveFrameName_value] at h1
      by_cases hc : s.self.current_control_frame_ = []
      · exact Or.inl hc
      · right
        by_contra hp
        simp only [hc, if_false, hp, not_false_eq_true, if_true, hu] at h1
        exact append_slash_ne _ _ h1
  · rintro ⟨hv, hc⟩ n
    rw [resolveFrameName_fst _ _ s (resolveFrameName_self n s)]
    by_cases hn : n = []
    · subst hn
      by_cases hg : s.self.got_current_control_frame_ = true
      · have hr : (Transformer.resolveFrameName [] s).1 = s.self.current_control_frame_ := by
          rw [resolveFrameName_value]
          simp [hg]
        rw [hr, resolveFrameName_value]
        by_cases hce : s.self.current_control_frame_ = []
        · simp [hce, hg]
        · by_cases hu : s.self.got_uav_name_ = true
          · rcases hc hg hu with h | h
            · exact absurd h hce
            · simp [hce, h]
          · simp [hce, hu]
      · have hr : (Transformer.resolveFrameName [] s).1 = [] := by
          rw [resolveFrameName_value]
          simp [hg]
        rw [hr, resolveFrameName_value]
        simp [hg]
    · by_cases hp : uav <+: n
      · have hr : (Transformer.resolveFrameName n s).1 = n := by
          rw [resolveFrameName_value]
          simp [hn, hp]
        rw [hr, hr]
      · by_cases hu : s.self.got_uav_name_ = true
        · have hr : (Transformer.resolveFrameName n s).1 = s.self.uav_name_ ++ slash ++ n := by
            rw [resolveFrameName_value]
            simp [hn, hp, hu]
          rw [hr, resolveFrameName_value]
          simp only [append_slash_ne_nil, if_false, uav_prefix_append _ _ (hv hu),
            not_true_eq_false]
        · have hr : (Transformer.resolveFrameName n s).1 = n := by
            rw [resolveFrameName_value]
            simp [hn, hp, hu]
          rw [hr, hr]
  · intro x hx
    rw [resolveFrameName_value]
    simp only [append_slash_ne_nil, if_false, uav_prefix_append _ _ hx, not_true_eq_false]

/-- The amended C3 on the `uav1` object with control frame `uav1/fcu`: both
conditions hold, so resolving `body` twice is resolving it once. -/
theorem resolveFrameName_idempotent_iff_witness :
    (Transformer.resolveFrameName (Transformer.resolveFrameName "body".toList demoState).1
        (Transformer.resolveFrameName "body".toList demoState).2).1 =
      (Transformer.resolveFrameName "body".toList demoState).1 ∧
    (Transformer.resolveFrameName "uav1/body".toList demoState).1 = "uav1/body".toList :=
  ⟨(resolveFrameName_idempotent_iff demoState).1.2
      ⟨fun _ => by decide, fun _ _ => Or.inr (by decide)⟩ "body".toList,
    (resolveFrameName_idempotent_iff demoState).2 "body".toList (by decide)⟩

/-! ## C4 and C5: `getUAVFramePrefix` -/

theorem findFrom_slash_some (l : Str) (i k : Nat) (h : findFrom l slash i = some k) :
    i ≤ k ∧ l[k - i]? = some '/' ∧ ∀ j, j < k - i → l[j]? ≠ some '/' := by
  induction l generalizing i with
  | nil => simp [findFrom, slash] at h
  | cons c cs ih =>
    by_cases hc : c = '/'
    · subst hc
      have hk : i = k := by simpa [findFrom, slash, List.isPrefixOf] using h
      subst hk
      simp
    · have h2 : findFrom cs slash (i + 1) = some k := by
        simpa [findFrom, slash, List.isPrefixOf, Ne.symm hc] using h
      obtain ⟨h3, h4, h5⟩ := ih (i + 1) h2
      have hki : k - i = (k - (i + 1)) + 1 := by omega
      refine ⟨by omega, ?_, ?_⟩
      · rw [hki, List.getElem?_cons_succ]
        exact h4
      · intro j hj
        cases j with
        | zero => simpa using hc
        | succ j =>
          rw [List.getElem?_cons_succ]
          exact h5 j (by omega)

theorem findFrom_slash_none (l : Str) (i : Nat) (h : findFrom l slash i = none) :
    ∀ j : Nat, l[j]? ≠ some '/' := by
  induction l generalizing i with
  | nil => intro j; simp
  | cons c cs ih =>
    by_cases hc : c = '/'
    · subst hc
      simp [findFrom, slash, List.isPrefixOf] at h
    · have h2 : findFrom cs slash (i + 1) = none := by
        simpa [findFrom, slash, List.isPrefixOf, Ne.symm hc] using h
      intro j
      cases j with
      | zero => simpa using hc
      | succ j =>
        rw [List.getElem?_cons_succ]
        exact ih (i + 1) h2 j

theorem find_slash_some (name : Str) (k : Nat) (h : find name slash 3 = some k) :
    3 ≤ k ∧ name[k]? = some '/' ∧ ∀ j, 3 ≤ j → j < k → name[j]? ≠ some '/' := by
  unfold find at h
  split_ifs at h with hl
  obtain ⟨h1, h2, h3⟩ := findFrom_slash_some _ _ _ h
  refine ⟨h1, ?_, ?_⟩
  · rw [List.getElem?_drop] at h2
    have : 3 + (k - 3) = k := by omega
    rwa [this] at h2
  · intro j hj hjk
    have h4 := h3 (j - 3) (by omega)
    rw [List.getElem?_drop] at h4
    have : 3 + (j - 3) = j := by omega
    rwa [this] at h4

theorem find_slash_none (name : Str) (h : find name slash 3 = none) :
    ∀ j, 3 ≤ j → name[j]? ≠ some '/' := by
  unfold find at h
  intro j hj
  split_ifs at h with hl
  · have : name[j]? = none := List.getElem?_eq_none (by omega)
    simp [this]
  · have h4 := findFrom_slash_none _ _ h (j - 3)
    rw [List.getElem?_drop] at h4
    have : 3 + (j - 3) = j := by omega
    rwa [this] at h4

theorem getUAVFramePrefix_some (name : Str) (k : Nat) (h : find name slash 3 = some k) :
    Transformer.getUAVFramePrefix name = name.take k := by
  simp [Transformer.getUAVFramePrefix, h, substr]

theorem getUAVFramePrefix_none (name : Str) (h : find name slash 3 = none) :
    Transformer.getUAVFramePrefix name = name := by
  simp [Transformer.getUAVFramePrefix, h]

/-- C4. The name `world` does not begin with `uav`, and `getUAVFramePrefix`
returns it whole, not the empty string: the empty string built for this case
is never returned. -/
theorem getUAVFramePrefix_world :
    ¬ uav <+: "world".toList ∧
      Transformer.getUAVFramePrefix "world".toList = "world".toList ∧
      Transformer.getUAVFramePrefix "world".toList ≠ [] := by
  decide

/-- C5. For a name that begins with `uav`: if `k` is the first index from 3 on
that holds a `/`, the result is the first `k` characters; if no index from 3
on holds a `/`, the result is the whole name; the result is a prefix of the
name; and it is the whole name or holds no `/` from index 3 on. The prefix of
`uav1/world` is `uav1`. -/
theorem getUAVFramePrefix_spec (name : Str) :
    (uav <+: name →
      (∀ k, 3 ≤ k → name[k]? = some '/' → (∀ j, 3 ≤ j → j < k → name[j]? ≠ some '/') →
          Transformer.getUAVFramePrefix name = name.take k) ∧
        ((∀ j, 3 ≤ j → name[j]? ≠ some '/') → Transformer.getUAVFramePrefix name = name) ∧
        Transformer.getUAVFramePrefix name <+: name ∧
        (Transformer.getUAVFramePrefix name = name ∨
          ∀ j, 3 ≤ j → (Transformer.getUAVFramePrefix name)[j]? ≠ some '/')) ∧
      Transformer.getUAVFramePrefix "uav1/world".toList = "uav1".toList := by
  refine ⟨fun _ => ?_, by decide⟩
  cases hf : find name slash 3 with
  | none =>
    have hn := find_slash_none name hf
    rw [getUAVFramePrefix_none name hf]
    refine ⟨?_, fun _ => rfl, List.prefix_refl name, Or.inl rfl⟩
    intro k hk hs _
    exact absurd hs (hn k hk)
  | some k0 =>
    obtain ⟨h1, h2, h3⟩ := find_slash_some name k0 hf
    rw [getUAVFramePrefix_some name k0 hf]
    refine ⟨?_, ?_, List.take_prefix k0 name, Or.inr ?_⟩
    · intro k hk hs hb
      have hkk : k = k0 := by
        rcases Nat.lt_trichotomy k k0 with hlt | heq | hgt
        · exact absurd hs (h3 k hk hlt)
        · exact heq
        · exact absurd h2 (hb k0 h1 hgt)
      rw [hkk]
    · intro hno
      exact absurd h2 (hno k0 h1)
    · intro j hj
      by_cases hjk : j < k0
      · rw [List.getElem?_take_of_lt hjk]
        exact h3 j hj hjk
      · have : (List.take k0 name)[j]? = none :=
          List.getElem?_eq_none (by simp; omega)
        simp [this]

/-- C5 on `uav1/world`: it begins with `uav`, index 4 is the first from 3 on
that holds a `/`, and the result is the first four characters. -/
theorem getUAVFramePrefix_spec_witness :
    uav <+: "uav1/world".toList ∧
      Transformer.getUAVFramePrefix "uav1/world".toList = "uav1/world".toList.take 4 :=
  ⟨by decide,
    ((getUAVFramePrefix_spec "uav1/world".toList).1 (by decide)).1 4 (by decide) (by decide)
      (fun j h3 h4 => by
        have hj : j = 3 := by omega
        subst hj
        decide)⟩

/-! ## The four ways through `getTransform` -/

theorem resolutionState_self (env : Env) (from_frame to_frame : Str) (s : St) :
    (resolutionState env from_frame to_frame s).self = s.self := by
  simp [resolutionState, resolveFrameName_self]

theorem resolutionState_lookups (env : Env) (from_frame to_frame : Str) (s : St) :
    lookups (resolutionState env from_frame to_frame s).trace = lookups s.trace := by
  simp [resolutionState, resolveFrameName_lookups]

theorem resolutionState_conversions (env : Env) (from_frame to_frame : Str) (s : St) :
    conversions (resolutionState env from_frame to_frame s).trace = conversions s.trace := by
  simp [resolutionState, resolveFrameName_conversions]

theorem resolveFrameName_fst_second (a b : Str) (s : St) :
    (Transformer.resolveFrameName a (Transformer.resolveFrameName b s).2).1 =
      (Transformer.resolveFrameName a s).1 :=
  resolveFrameName_fst a _ s (resolveFrameName_self b s)

theorem resolveFrameName_fst_third (a b c : Str) (s : St) :
    (Transformer.resolveFrameName a
        (Transformer.resolveFrameName b (Transformer.resolveFrameName c s).2).2).1 =
      (Transformer.resolveFrameName a s).1 :=
  resolveFrameName_fst a _ s (by rw [resolveFrameName_self, resolveFrameName_self])

theorem getTransform_uninitialized (env : Env) (from_frame to_frame : Str) (time_stamp : Time)
    (s : St) (hi : s.self.is_initialized_ = false) :
    Transformer.getTransform env from_frame to_frame time_stamp s =
      (none, s.emit (Event.log Level.error)) := by
  unfold Transformer.getTransform
  simp only [hi, if_true]

theorem getTransform_geodetic (env : Env) (from_frame to_frame : Str) (time_stamp : Time)
    (s : St) (hi : s.self.is_initialized_ = true)
    (hg : (Transformer.resolveFrameName from_frame s).1 =
          (Transformer.resolveFrameName env.LATLON_ORIGIN s).1 ∨
        (Transformer.resolveFrameName to_frame s).1 =
          (Transformer.resolveFrameName env.LATLON_ORIGIN s).1) :
    Transformer.getTransform env from_frame to_frame time_stamp s =
      (some (TransformStamped.mk3 (Transformer.resolveFrameName from_frame s).1
          (Transformer.resolveFrameName to_frame s).1 time_stamp),
        resolutionState env from_frame to_frame s) := by
  unfold Transformer.getTransform
  simp only [hi, Bool.true_eq_false, if_false, resolveFrameName_fst_second,
    resolveFrameName_fst_third, hg, if_true, resolutionState]

theorem getTransform_first (env : Env) (from_frame to_frame : Str) (time_stamp : Time)
    (s : St) (transform : TransformMsg) (hi : s.self.is_initialized_ = true)
    (hf : (Transformer.resolveFrameName from_frame s).1 ≠
      (Transformer.resolveFrameName env.LATLON_ORIGIN s).1)
    (ht : (Transformer.resolveFrameName to_frame s).1 ≠
      (Transformer.resolveFrameName env.LATLON_ORIGIN s).1)
    (h1 : env.lookupTransform (resolutionState env from_frame to_frame s).trace
        (Transformer.resolveFrameName to_frame s).1 (Transformer.resolveFrameName from_frame s).1
        time_stamp = some transform) :
    Transformer.getTransform env from_frame to_frame time_stamp s =
      (some (TransformStamped.mk4 (Transformer.resolveFrameName from_frame s).1
          (Transformer.resolveFrameName to_frame s).1
          (env.now ((resolutionState env from_frame to_frame s).trace ++
            [Event.lookupTransform (Transformer.resolveFrameName to_frame s).1
              (Transformer.resolveFrameName from_frame s).1 time_stamp]))
          transform),
        ⟨s.self, (resolutionState env from_frame to_frame s).trace ++
          [Event.lookupTransform (Transformer.resolveFrameName to_frame s).1
            (Transformer.resolveFrameName from_frame s).1 time_stamp, Event.now]⟩) := by
  unfold resolutionState at h1
  unfold Transformer.getTransform
  simp only [hi, Bool.true_eq_false, if_false, resolveFrameName_fst_second,
    resolveFrameName_fst_third, hf, ht, or_self, h1, resolutionState, St.emit,
    resolveFrameName_self, List.append_assoc, List.singleton_append]

theorem getTransform_second (env : Env) (from_frame to_frame : Str) (time_stamp : Time)
    (s : St) (transform : TransformMsg) (hi : s.self.is_initialized_ = true)
    (hf : (Transformer.resolveFrameName from_frame s).1 ≠
      (Transformer.resolveFrameName env.LATLON_ORIGIN s).1)
    (ht : (Transformer.resolveFrameName to_frame s).1 ≠
      (Transformer.resolveFrameName env.LATLON_ORIGIN s).1)
    (h1 : env.lookupTransform (resolutionState env from_frame to_frame s).trace
        (Transformer.resolveFrameName to_frame s).1 (Transformer.resolveFrameName from_frame s).1
        time_stamp = none)
    (h2 : env.lookupTransform ((resolutionState env from_frame to_frame s).trace ++
          [Event.lookupTransform (Transformer.resolveFrameName to_frame s).1
            (Transformer.resolveFrameName from_frame s).1 time_stamp, Event.log Level.debug])
        (Transformer.resolveFrameName to_frame s).1 (Transformer.resolveFrameName from_frame s).1
        Time.zero = some transform) :
    Transformer.getTransform env from_frame to_frame time_stamp s =
      (some (TransformStamped.mk4 (Transformer.resolveFrameName from_frame s).1
          (Transformer.resolveFrameName to_frame s).1
          (env.now ((resolutionState env from_frame to_frame s).trace ++
            [Event.lookupTransform (Transformer.resolveFrameName to_frame s).1
              (Transformer.resolveFrameName from_frame s).1 time_stamp, Event.log Level.debug,
             Event.lookupTransform (Transformer.resolveFrameName to_frame s).1
              (Transformer.resolveFrameName from_frame s).1 Time.zero]))
          transform),
        ⟨s.self, (resolutionState env from_frame to_frame s).trace ++
          [Event.lookupTransform (Transformer.resolveFrameName to_frame s).1
            (Transformer.resolveFrameName from_frame s).1 time_stamp, Event.log Level.debug,
           Event.lookupTransform (Transformer.resolveFrameName to_frame s).1
            (Transformer.resolveFrameName from_frame s).1 Time.zero, Event.now]⟩) := by
  unfold resolutionState at h1 h2
  unfold Transformer.getTransform
  simp only [hi, Bool.true_eq_false, if_false, resolveFrameName_fst_second,
    resolveFrameName_fst_third, hf, ht, or_self, h1, h2, resolutionState, St.emit,
    resolveFrameName_self, List.append_assoc, List.singleton_append, List.cons_append,
    List.nil_append]

theorem getTransform_failed (env : Env) (from_frame to_frame : Str) (time_stamp : Time)
    (s : St) (hi : s.self.is_initialized_ = true)
    (hf : (Transformer.resolveFrameName from_frame s).1 ≠
      (Transformer.resolveFrameName env.LATLON_ORIGIN s).1)
    (ht : (Transformer.resolveFrameName to_frame s).1 ≠
      (Transformer.resolveFrameName env.LATLON_ORIGIN s).1)
    (h1 : env.lookupTransform (resolutionState env from_frame to_frame s).trace
        (Transformer.resolveFrameName to_frame s).1 (Transformer.resolveFrameName from_frame s).1
        time_stamp = none)
    (h2 : env.lookupTransform ((resolutionState env from_frame to_frame s).trace ++
          [Event.lookupTransform (Transformer.resolveFrameName to_frame s).1
            (Transformer.resolveFrameName from_frame s).1 time_stamp, Event.log Level.debug])
        (Transformer.resolveFrameName to_frame s).1 (Transformer.resolveFrameName from_frame s).1
        Time.zero = none) :
    Transformer.getTransform env from_frame to_frame time_stamp s =
      (none,
        ⟨s.self, (resolutionState env from_frame to_frame s).trace ++
          [Event.lookupTransform (Transformer.resolveFrameName to_frame s).1
            (Transformer.resolveFrameName from_frame s).1 time_stamp, Event.log Level.debug,
           Event.lookupTransform (Transformer.resolveFrameName to_frame s).1
            (Transformer.resolveFrameName from_frame s).1 Time.zero, Event.log Level.warn]⟩) := by
  unfold resolutionState at h1 h2
  unfold Transformer.getTransform
  simp only [hi, Bool.true_eq_false, if_false, resolveFrameName_fst_second,
    resolveFrameName_fst_third, hf, ht, or_self, h1, h2, resolutionState, St.emit,
    resolveFrameName_self, List.append_assoc, List.singleton_append, List.cons_append,
    List.nil_append]

/-! ## C6, C7, C8: the lookup with fallback -/

/-- C6. On an initialized object, with both resolved endpoints different
from the resolved geodetic frame, `getTransform` returns none exactly when
the buffer query at the requested time and the buffer query at `ros::Time(0)`
both fail. The queries it adds to the trace are the one at the requested time
and, only when that one failed, the one at `ros::Time(0)`; each passes the
resolved target first and the resolved source second. -/
theorem getTransform_none_iff (env : Env) (from_frame to_frame : Str) (time_stamp : Time)
    (s : St) (hi : s.self.is_initialized_ = true)
    (hf : (Transformer.resolveFrameName from_frame s).1 ≠
      (Transformer.resolveFrameName env.LATLON_ORIGIN s).1)
    (ht : (Transformer.resolveFrameName to_frame s).1 ≠
      (Transformer.resolveFrameName env.LATLON_ORIGIN s).1) :
    let to_frame_resolved := (Transformer.resolveFrameName to_frame s).1
    let from_frame_resolved := (Transformer.resolveFrameName from_frame s).1
    let asked := (resolutionState env from_frame to_frame s).trace
    let first := env.lookupTransform asked to_frame_resolved from_frame_resolved time_stamp
    let second := env.lookupTransform
      (asked ++ [Event.lookupTransform to_frame_resolved from_frame_resolved time_stamp,
        Event.log Level.debug])
      to_frame_resolved from_frame_resolved Time.zero
    ((Transformer.getTransform env from_frame to_frame time_stamp s).1 = none ↔
        first = none ∧ second = none) ∧
      lookups (Transformer.getTransform env from_frame to_frame time_stamp s).2.trace =
        lookups s.trace ++
          Event.lookupTransform to_frame_resolved from_frame_resolved time_stamp ::
            (if first = none then
              [Event.lookupTransform to_frame_resolved from_frame_resolved Time.zero]
            else []) := by
  intro to_frame_resolved from_frame_resolved asked first second
  cases h1 : first with
  | some transform =>
    rw [getTransform_first env from_frame to_frame time_stamp s transform hi hf ht h1]
    simp only [lookups_append, resolutionState_lookups]
    simp [lookups, Event.isLookup]
  | none =>
    cases h2 : second with
    | some transform =>
      rw [getTransform_second env from_frame to_frame time_stamp s transform hi hf ht h1 h2]
      simp only [lookups_append, resolutionState_lookups]
      simp [lookups, Event.isLookup, to_frame_resolved, from_frame_resolved]
    | none =>
      rw [getTransform_failed env from_frame to_frame time_stamp s hi hf ht h1 h2]
      simp only [lookups_append, resolutionState_lookups]
      simp [lookups, Event.isLookup, to_frame_resolved, from_frame_resolved]

/-- C6 on the `uav1` object with an empty buffer: both queries fail, the
result is none, and the trace holds the two queries, target before source. -/
theorem getTransform_none_iff_witness :
    (Transformer.getTransform demoEnv "fcu".toList "world".toList ⟨7, 0⟩ demoState).1 = none ∧
      lookups
          (Transformer.getTransform demoEnv "fcu".toList "world".toList ⟨7, 0⟩ demoState).2.trace =
        [Event.lookupTransform "uav1/world".toList "uav1/fcu".toList ⟨7, 0⟩,
          Event.lookupTransform "uav1/world".toList "uav1/fcu".toList Time.zero] :=
  ⟨(getTransform_none_iff demoEnv "fcu".toList "world".toList ⟨7, 0⟩ demoState
      (by decide) (by decide) (by decide)).1.2 ⟨rfl, rfl⟩,
    (getTransform_none_iff demoEnv "fcu".toList "world".toList ⟨7, 0⟩ demoState
      (by decide) (by decide) (by decide)).2⟩

/-- C7. On an initialized object, with both resolved endpoints different
from the resolved geodetic frame, a transform returned by `getTransform` has
the resolved names as `from()` and `to()`. If the query at the requested time
succeeded, the payload is its answer; otherwise the payload is the answer of
the query at `ros::Time(0)`. In both cases `stamp()` is the value of
`ros::Time::now()` read right after the successful query, and the clock read
is the last effect of the call. -/
theorem getTransform_stamping (env : Env) (from_frame to_frame : Str) (time_stamp : Time)
    (s : St) (result : TransformStamped) (hi : s.self.is_initialized_ = true)
    (hf : (Transformer.resolveFrameName from_frame s).1 ≠
      (Transformer.resolveFrameName env.LATLON_ORIGIN s).1)
    (ht : (Transformer.resolveFrameName to_frame s).1 ≠
      (Transformer.resolveFrameName env.LATLON_ORIGIN s).1)
    (hr : (Transformer.getTransform env from_frame to_frame time_stamp s).1 = some result) :
    let to_frame_resolved := (Transformer.resolveFrameName to_frame s).1
    let from_frame_resolved := (Transformer.resolveFrameName from_frame s).1
    let asked := (resolutionState env from_frame to_frame s).trace
    let first := env.lookupTransform asked to_frame_resolved from_frame_resolved time_stamp
    let asked_again := asked ++
      [Event.lookupTransform to_frame_resolved from_frame_resolved time_stamp,
        Event.log Level.debug]
    let second := env.lookupTransform asked_again to_frame_resolved from_frame_resolved Time.zero
    result.«from» = from_frame_resolved ∧ result.to = to_frame_resolved ∧
      (∀ transform, first = some transform →
        result.getTransform = transform ∧
          result.stamp = env.now (asked ++
            [Event.lookupTransform to_frame_resolved from_frame_resolved time_stamp]) ∧
          (Transformer.getTransform env from_frame to_frame time_stamp s).2.trace =
            asked ++ [Event.lookupTransform to_frame_resolved from_frame_resolved time_stamp,
              Event.now]) ∧
      (first = none →
        second = some result.getTransform ∧
          result.stamp = env.now (asked_again ++
            [Event.lookupTransform to_frame_resolved from_frame_resolved Time.zero]) ∧
          (Transformer.getTransform env from_frame to_frame time_stamp s).2.trace =
            asked_again ++ [Event.lookupTransform to_frame_resolved from_frame_resolved Time.zero,
              Event.now]) := by
  intro to_frame_resolved from_frame_resolved asked first asked_again second
  cases h1 : first with
  | some transform =>
    rw [getTransform_first env from_frame to_frame time_stamp s transform hi hf ht h1] at hr ⊢
    simp only [Option.some.injEq] at hr
    subst hr
    refine ⟨rfl, rfl, ?_, fun h => by simp at h⟩
    intro transform2 h
    simp only [Option.some.injEq] at h
    subst h
    exact ⟨rfl, rfl, rfl⟩
  | none =>
    cases h2 : second with
    | some transform =>
      rw [getTransform_second env from_frame to_frame time_stamp s transform hi hf ht h1 h2]
        at hr ⊢
      simp only [Option.some.injEq] at hr
      subst hr
      refine ⟨rfl, rfl, fun transform2 h => by simp at h, fun _ => ⟨rfl, ?_, ?_⟩⟩
      · simp [TransformStamped.stamp, TransformStamped.mk4, asked_again, asked,
          to_frame_resolved, from_frame_resolved]
      · simp [asked_again, asked, to_frame_resolved, from_frame_resolved]
    | none =>
      rw [getTransform_failed env from_frame to_frame time_stamp s hi hf ht h1 h2] at hr
      simp at hr

/-- C8. On an initialized object, when the resolved source or the resolved
target is the resolved geodetic frame, `getTransform` returns a transform with
the resolved names, the requested timestamp and the default payload; the
object is left as it was and no buffer query is added to the trace, whatever
the buffer would answer. -/
theorem getTransform_geodetic_sentinel (env : Env) (from_frame to_frame : Str)
    (time_stamp : Time) (s : St) (hi : s.self.is_initialized_ = true)
    (hg : (Transformer.resolveFrameName from_frame s).1 =
          (Transformer.resolveFrameName env.LATLON_ORIGIN s).1 ∨
        (Transformer.resolveFrameName to_frame s).1 =
          (Transformer.resolveFrameName env.LATLON_ORIGIN s).1) :
    ∃ sentinel, (Transformer.getTransform env from_frame to_frame time_stamp s).1 = some sentinel ∧
      sentinel.«from» = (Transformer.resolveFrameName from_frame s).1 ∧
      sentinel.to = (Transformer.resolveFrameName to_frame s).1 ∧
      sentinel.stamp = time_stamp ∧
      sentinel.getTransform = TransformMsg.empty ∧
      (Transformer.getTransform env from_frame to_frame time_stamp s).2.self = s.self ∧
      lookups (Transformer.getTransform env from_frame to_frame time_stamp s).2.trace =
        lookups s.trace := by
  rw [getTransform_geodetic env from_frame to_frame time_stamp s hi hg]
  exact ⟨_, rfl, rfl, rfl, rfl, rfl, resolutionState_self env from_frame to_frame s,
    resolutionState_lookups env from_frame to_frame s⟩

/-- C7 on the `uav1` object with a buffer that answers at the latest time
only: the first query fails, the returned payload is the latest answer, and
the stamp is the clock's 100 s, not the 7 s requested. -/
theorem getTransform_stamping_witness :
    (Transformer.getTransform demoEnvLatest "fcu".toList "world".toList ⟨7, 0⟩ demoState).1 =
        some (TransformStamped.mk4 "uav1/fcu".toList "uav1/world".toList ⟨100, 0⟩
          { TransformMsg.empty with child_frame_id := "uav1/fcu".toList }) ∧
      (TransformStamped.mk4 "uav1/fcu".toList "uav1/world".toList ⟨100, 0⟩
          { TransformMsg.empty with child_frame_id := "uav1/fcu".toList }).stamp =
        (⟨100, 0⟩ : Time) :=
  ⟨by decide,
    ((getTransform_stamping demoEnvLatest "fcu".toList "world".toList ⟨7, 0⟩ demoState
      (TransformStamped.mk4 "uav1/fcu".toList "uav1/world".toList ⟨100, 0⟩
        { TransformMsg.empty with child_frame_id := "uav1/fcu".toList })
      (by decide) (by decide) (by decide) (by decide)).2.2.2 (by decide)).2.1⟩

/-- C8 on the `uav1` object with an empty buffer: a request from the geodetic
frame succeeds with the sentinel. -/
theorem getTransform_geodetic_sentinel_witness :
    ∃ sentinel,
      (Transformer.getTransform demoEnv "latlon_origin".toList "fcu".toList ⟨7, 0⟩ demoState).1 =
          some sentinel ∧
        sentinel.«from» = "uav1/latlon_origin".toList ∧
        sentinel.to = "uav1/fcu".toList ∧
        sentinel.stamp = ⟨7, 0⟩ ∧
        sentinel.getTransform = TransformMsg.empty ∧
        (Transformer.getTransform demoEnv "latlon_origin".toList "fcu".toList ⟨7, 0⟩
          demoState).2.self = demoState.self ∧
        lookups (Transformer.getTransform demoEnv "latlon_origin".toList "fcu".toList ⟨7, 0⟩
          demoState).2.trace = lookups demoState.trace :=
  getTransform_geodetic_sentinel demoEnv "latlon_origin".toList "fcu".toList ⟨7, 0⟩ demoState
    (by decide) (Or.inl (by decide))

/-! ## C9: the missing-zone guard -/

theorem runCalls_zone (env : Env) (calls : List Call) (s : St)
    (h : ∀ lat lon, Call.setCurrentLatLon lat lon ∉ calls) :
    (runCalls env calls s).self.got_utm_zone_ = s.self.got_utm_zone_ := by
  induction calls generalizing s with
  | nil => rfl
  | cons c cs ih =>
    cases c with
    | setCurrentControlFrame inp =>
      have h2 := ih (Transformer.setCurrentControlFrame inp s)
        (fun lat lon hm => h lat lon (List.mem_cons_of_mem _ hm))
      simpa [runCalls, Call.run, Transformer.setCurrentControlFrame, St.emit] using h2
    | setCurrentLatLon lat lon =>
      exact absurd (List.mem_cons_self _ _) (h lat lon)

theorem transformImpl_missing_zone (env : Env) (tf : TransformStamped) (what : PoseStamped)
    (s : St) (hz : s.self.got_utm_zone_ = false)
    (hto : tf.to = (Transformer.resolveFrameName env.LATLON_ORIGIN s).1)
    (hfrom : tf.«from» ≠ (Transformer.resolveFrameName env.LATLON_ORIGIN s).1)
    (hpose : (Transformer.resolveFrameName what.header.frame_id s).1 ≠ tf.to) :
    Transformer.transformImpl env tf what s =
      (none,
        (Transformer.resolveFrameName env.LATLON_ORIGIN
          (Transformer.resolveFrameName what.header.frame_id s).2).2.emit
            (Event.log Level.warn)) := by
  have hfrom2 : tf.«from» ≠ tf.to := by
    rw [hto]
    exact hfrom
  unfold Transformer.transformImpl
  simp only [resolveFrameName_fst_second, hpose, if_false, hfrom2, ← hto, if_true,
    resolveFrameName_self, hz]

theorem repeatTransformImpl_missing_zone (env : Env) (tf : TransformStamped)
    (what : PoseStamped) (n : Nat) (s : St) (hz : s.self.got_utm_zone_ = false)
    (hto : tf.to = (Transformer.resolveFrameName env.LATLON_ORIGIN s).1)
    (hfrom : tf.«from» ≠ (Transformer.resolveFrameName env.LATLON_ORIGIN s).1)
    (hpose : (Transformer.resolveFrameName what.header.frame_id s).1 ≠ tf.to) :
    (repeatTransformImpl env tf what n s).1 = List.replicate n none ∧
      (repeatTransformImpl env tf what n s).2.self = s.self := by
  induction n generalizing s with
  | zero => exact ⟨rfl, rfl⟩
  | succ n ih =>
    have hstep := transformImpl_missing_zone env tf what s hz hto hfrom hpose
    have hself : (Transformer.transformImpl env tf what s).2.self = s.self := by
      rw [hstep]
      simp [St.emit, resolveFrameName_self]
    have hrest := ih (Transformer.transformImpl env tf what s).2 (by rw [hself]; exact hz)
      (by rw [hto]; exact (resolveFrameName_fst _ _ _ hself).symm)
      (by rw [resolveFrameName_fst _ _ _ hself]; exact hfrom)
      (by rw [resolveFrameName_fst _ _ _ hself]; exact hpose)
    simp only [repeatTransformImpl]
    refine ⟨?_, hrest.2.trans hself⟩
    rw [hrest.1, hstep]
    rfl

/-- C9. On an object reached from any construction by setter calls none of
which is `setCurrentLatLon`: if `tf.to()` is the resolved geodetic frame,
`tf.from()` is not, and the pose's frame label does not resolve to `tf.to()`,
then `transformImpl` returns none, leaves the object as it was, and adds to
the trace no buffer query and no GPS conversion; the request repeated any
number of times returns none every time. -/
theorem transformImpl_missing_zone_guard (env : Env) (timeout0 : Double) (zone0 : Zone)
    (c : Construction) (calls : List Call) (tf : TransformStamped) (what : PoseStamped) (s : St)
    (hs : s = runCalls env calls (c.build timeout0 zone0))
    (hcalls : ∀ lat lon, Call.setCurrentLatLon lat lon ∉ calls)
    (hto : tf.to = (Transformer.resolveFrameName env.LATLON_ORIGIN s).1)
    (hfrom : tf.«from» ≠ (Transformer.resolveFrameName env.LATLON_ORIGIN s).1)
    (hpose : (Transformer.resolveFrameName what.header.frame_id s).1 ≠ tf.to) :
    (Transformer.transformImpl env tf what s).1 = none ∧
      (Transformer.transformImpl env tf what s).2.self = s.self ∧
      lookups (Transformer.transformImpl env tf what s).2.trace = lookups s.trace ∧
      conversions (Transformer.transformImpl env tf what s).2.trace = conversions s.trace ∧
      ∀ n, (repeatTransformImpl env tf what n s).1 = List.replicate n none := by
  have hz : s.self.got_utm_zone_ = false := by
    rw [hs, runCalls_zone env calls _ hcalls]
    exact (build_registries timeout0 zone0 c).2.1
  have hstep := transformImpl_missing_zone env tf what s hz hto hfrom hpose
  refine ⟨by rw [hstep], ?_, ?_, ?_, fun n =>
    (repeatTransformImpl_missing_zone env tf what n s hz hto hfrom hpose).1⟩
  · rw [hstep]
    simp [St.emit, resolveFrameName_self]
  · rw [hstep]
    simp only [St.emit, lookups_append, resolveFrameName_lookups]
    simp [lookups, Event.isLookup]
  · rw [hstep]
    simp only [St.emit, conversions_append, resolveFrameName_conversions]
    simp [conversions, Event.isConversion]

/-- C9 on the `uav1` object, whose history has no `setCurrentLatLon`: a pose
in `world` sent to the geodetic frame gives none, three times in a row. -/
theorem transformImpl_missing_zone_guard_witness :
    (Transformer.transformImpl demoEnv demoTfToLatLon demoPose demoState).1 = none ∧
      (repeatTransformImpl demoEnv demoTfToLatLon demoPose 3 demoState).1 =
        [none, none, none] :=
  ⟨(transformImpl_missing_zone_guard demoEnv Double.zero []
      (Construction.named "node".toList "uav1".toList Double.milli)
      [Call.setCurrentControlFrame "uav1/fcu".toList] demoTfToLatLon demoPose demoState rfl
      (fun _ _ => by simp) (by decide) (by decide) (by decide)).1,
    (transformImpl_missing_zone_guard demoEnv Double.zero []
      (Construction.named "node".toList "uav1".toList Double.milli)
      [Call.setCurrentControlFrame "uav1/fcu".toList] demoTfToLatLon demoPose demoState rfl
      (fun _ _ => by simp) (by decide) (by decide) (by decide)).2.2.2.2 3⟩

/-! ## C10: the uninitialized guard -/

/-- C10. A default-constructed object has `is_initialized_` false, and on any
object with `is_initialized_` false `getTransform` returns none and the `bool`
overload returns false with `output` as it was; the object is unchanged and
the only effect is the error log, so no registry is locked and no buffer
query made. -/
theorem getTransform_uninitialized_guard (env : Env) (from_frame to_frame : Str)
    (time_stamp : Time) (output : TransformStamped) (s : St) (timeout0 : Double) (zone0 : Zone)
    (hi : s.self.is_initialized_ = false) :
    (Transformer.new0 timeout0 zone0).is_initialized_ = false ∧
      Transformer.getTransform env from_frame to_frame time_stamp s =
        (none, ⟨s.self, s.trace ++ [Event.log Level.error]⟩) ∧
      Transformer.getTransformBool env from_frame to_frame time_stamp output s =
        ((false, output), ⟨s.self, s.trace ++ [Event.log Level.error]⟩) := by
  refine ⟨rfl, ?_, ?_⟩
  · rw [getTransform_uninitialized env from_frame to_frame time_stamp s hi]
    rfl
  · unfold Transformer.getTransformBool
    rw [getTransform_uninitialized env from_frame to_frame time_stamp s hi]
    rfl

/-- C10 on a default-constructed object. -/
theorem getTransform_uninitialized_guard_witness :
    defaultState.self.is_initialized_ = false ∧
      Transformer.getTransform demoEnv "fcu".toList "world".toList ⟨7, 0⟩ defaultState =
        (none, ⟨defaultState.self, [Event.log Level.error]⟩) ∧
      Transformer.getTransformBool demoEnv "fcu".toList "world".toList ⟨7, 0⟩ demoTf
          defaultState =
        ((false, demoTf), ⟨defaultState.self, [Event.log Level.error]⟩) :=
  ⟨by decide,
    (getTransform_uninitialized_guard demoEnv "fcu".toList "world".toList ⟨7, 0⟩ demoTf
      defaultState Double.zero [] (by decide)).2⟩

/-! ## C11: the geodetic source -/

theorem getTransform_self (env : Env) (from_frame to_frame : Str) (time_stamp : Time) (s : St) :
    (Transformer.getTransform env from_frame to_frame time_stamp s).2.self = s.self := by
  by_cases hi : s.self.is_initialized_ = true
  · by_cases hg : (Transformer.resolveFrameName from_frame s).1 =
          (Transformer.resolveFrameName env.LATLON_ORIGIN s).1 ∨
        (Transformer.resolveFrameName to_frame s).1 =
          (Transformer.resolveFrameName env.LATLON_ORIGIN s).1
    · rw [getTransform_geodetic env from_frame to_frame time_stamp s hi hg]
      exact resolutionState_self env from_frame to_frame s
    · have hf := fun h => hg (Or.inl h)
      have ht := fun h => hg (Or.inr h)
      cases h1 : env.lookupTransform (resolutionState env from_frame to_frame s).trace
          (Transformer.resolveFrameName to_frame s).1
          (Transformer.resolveFrameName from_frame s).1 time_stamp with
      | some transform =>
        rw [getTransform_first env from_frame to_frame time_stamp s transform hi hf ht h1]
      | none =>
        cases h2 : env.lookupTransform ((resolutionState env from_frame to_frame s).trace ++
            [Event.lookupTransform (Transformer.resolveFrameName to_frame s).1
              (Transformer.resolveFrameName from_frame s).1 time_stamp, Event.log Level.debug])
            (Transformer.resolveFrameName to_frame s).1
            (Transformer.resolveFrameName from_frame s).1 Time.zero with
        | some transform =>
          rw [getTransform_second env from_frame to_frame time_stamp s transform hi hf ht h1 h2]
        | none =>
          rw [getTransform_failed env from_frame to_frame time_stamp s hi hf ht h1 h2]
  · have hi2 : s.self.is_initialized_ = false := by simpa using hi
    rw [getTransform_uninitialized env from_frame to_frame time_stamp s hi2]
    rfl

/-- C11. On the initialized `uav1` object, with a buffer that fails every
query, a pose in `latlon_origin` sent through a transform from
`uav1/latlon_origin` to `uav1/fcu`: `transformImpl` relabels the pose into
`uav1/utm_origin` with the converted coordinates, and then returns a pose and
makes no buffer query at all. The transform it asks `getTransform` for goes
from `tf.from()`, the geodetic frame, so the answer is the payload-free
sentinel; no transform from `uav1/utm_origin` is ever requested. -/
theorem transformImpl_geodetic_source_skips_lookup :
    (∀ asked target source time, demoEnv.lookupTransform asked target source time = none) ∧
      demoState.self.is_initialized_ = true ∧
      demoTfFromLatLon.«from» =
        (Transformer.resolveFrameName demoEnv.LATLON_ORIGIN demoState).1 ∧
      (Transformer.resolveFrameName latlonPose.header.frame_id demoState).1 ≠
        demoTfFromLatLon.to ∧
      (Transformer.transformImpl demoEnv demoTfFromLatLon latlonPose demoState).1 =
        some { header := ⟨5, ⟨7, 0⟩, "uav1/utm_origin".toList⟩
               pose := ⟨⟨⟨1⟩, ⟨2⟩, ⟨3⟩⟩, ⟨⟨0⟩, ⟨0⟩, ⟨0⟩, ⟨4⟩⟩⟩ } ∧
      lookups (Transformer.transformImpl demoEnv demoTfFromLatLon latlonPose demoState).2.trace =
        [] ∧
      (Transformer.getTransform demoEnv demoTfFromLatLon.«from» demoTfFromLatLon.to
          latlonPose.header.stamp demoState).1 =
        some (TransformStamped.mk3 "uav1/latlon_origin".toList "uav1/fcu".toList ⟨7, 0⟩) := by
  refine ⟨fun _ _ _ _ => rfl, ?_, ?_, ?_, ?_, ?_, ?_⟩ <;> decide

/-! ## C12 and C14: the geodetic target -/

theorem transformImpl_geodetic_target_value (env : Env) (tf : TransformStamped)
    (what : PoseStamped) (s : St) (r : PoseStamped) (hz : s.self.got_utm_zone_ = true)
    (hto : tf.to = (Transformer.resolveFrameName env.LATLON_ORIGIN s).1)
    (hfrom : tf.«from» ≠ (Transformer.resolveFrameName env.LATLON_ORIGIN s).1)
    (hpose : (Transformer.resolveFrameName what.header.frame_id s).1 ≠ tf.to)
    (hr : (Transformer.transformImpl env tf what s).1 = some r) :
    r =
      { header := { what.header with
          frame_id := (Transformer.resolveFrameName what.header.frame_id s).1 }
        pose :=
          { position :=
              ⟨(env.UTMtoLL what.pose.position.y what.pose.position.x s.self.utm_zone_).1,
                (env.UTMtoLL what.pose.position.y what.pose.position.x s.self.utm_zone_).2,
                what.pose.position.z⟩
            orientation := what.pose.orientation } } := by
  have hfrom2 : tf.«from» ≠ tf.to := by
    rw [hto]
    exact hfrom
  unfold Transformer.transformImpl at hr
  simp only [resolveFrameName_fst_second, hpose, if_false, hfrom2, ← hto, if_true,
    resolveFrameName_self, hz, Bool.true_eq_false] at hr
  split at hr
  · simp at hr
  · split at hr
    · simp at hr
    · simp only [Option.some.injEq] at hr
      rw [← hr]
      simp [St.emit, getTransform_self, resolveFrameName_self]

/-- C12. On the `uav1` object with the zone set, the pose in `world` sent
through a transform from `uav1/fcu` to the geodetic frame
`uav1/latlon_origin`: `transformImpl` returns a pose, and its frame label is
`uav1/world`, the resolved label of the input, not `tf.to()`. -/
theorem transformImpl_geodetic_target_label :
    zoneState.self.is_initialized_ = true ∧
      zoneState.self.got_utm_zone_ = true ∧
      demoTfToLatLon.to = (Transformer.resolveFrameName demoEnv.LATLON_ORIGIN zoneState).1 ∧
      demoTfToLatLon.«from» ≠ (Transformer.resolveFrameName demoEnv.LATLON_ORIGIN zoneState).1 ∧
      (Transformer.resolveFrameName demoPose.header.frame_id zoneState).1 ≠ demoTfToLatLon.to ∧
      (Transformer.transformImpl demoEnv demoTfToLatLon demoPose zoneState).1 =
        some { header := ⟨5, ⟨7, 0⟩, "uav1/world".toList⟩
               pose := ⟨⟨⟨2⟩, ⟨1⟩, ⟨3⟩⟩, ⟨⟨0⟩, ⟨0⟩, ⟨0⟩, ⟨4⟩⟩⟩ } ∧
      "uav1/world".toList ≠ demoTfToLatLon.to := by
  refine ⟨?_, ?_, ?_, ?_, ?_, ?_, ?_⟩ <;> decide

/-- C14. With the UTM zone set, in the geodetic-target case (`tf.to()` is the
resolved geodetic frame, `tf.from()` is not, the pose's label does not resolve
to `tf.to()`), a pose returned by `transformImpl` has as x and y the latitude
and longitude that `UTMtoLL` gives for the y and x of the input pose and the
stored zone, and the z and orientation of the input pose. In any other world
with the same `LATLON_ORIGIN` and `UTMtoLL`, whatever its buffer, clock and
`doTransform`, a returned pose is the same pose. -/
theorem transformImpl_geodetic_target_snapshot (env env2 : Env) (tf : TransformStamped)
    (what : PoseStamped) (s : St) (r r2 : PoseStamped) (hz : s.self.got_utm_zone_ = true)
    (hto : tf.to = (Transformer.resolveFrameName env.LATLON_ORIGIN s).1)
    (hfrom : tf.«from» ≠ (Transformer.resolveFrameName env.LATLON_ORIGIN s).1)
    (hpose : (Transformer.resolveFrameName what.header.frame_id s).1 ≠ tf.to)
    (hr : (Transformer.transformImpl env tf what s).1 = some r) :
    r.pose.position.x =
        (env.UTMtoLL what.pose.position.y what.pose.position.x s.self.utm_zone_).1 ∧
      r.pose.position.y =
        (env.UTMtoLL what.pose.position.y what.pose.position.x s.self.utm_zone_).2 ∧
      r.pose.position.z = what.pose.position.z ∧
      r.pose.orientation = what.pose.orientation ∧
      (env2.LATLON_ORIGIN = env.LATLON_ORIGIN → env2.UTMtoLL = env.UTMtoLL →
        (Transformer.transformImpl env2 tf what s).1 = some r2 → r2 = r) := by
  have h := transformImpl_geodetic_target_value env tf what s r hz hto hfrom hpose hr
  refine ⟨by rw [h], by rw [h], by rw [h], by rw [h], ?_⟩
  intro hl hu hr2
  have h2 := transformImpl_geodetic_target_value env2 tf what s r2 hz (by rw [hl]; exact hto)
    (by rw [hl]; exact hfrom) hpose hr2
  rw [h2, h, hu]

/-- C14 on the `uav1` object with the zone set: the pose at (1, 2, 3) comes
back at (2, 1, 3), the conversion of `demoEnv` applied to (y, x) of the input,
and the world whose buffer answers every query returns the same pose. -/
theorem transformImpl_geodetic_target_snapshot_witness :
    (Transformer.transformImpl demoEnv demoTfToLatLon demoPose zoneState).1 =
        some { header := ⟨5, ⟨7, 0⟩, "uav1/world".toList⟩
               pose := ⟨⟨⟨2⟩, ⟨1⟩, ⟨3⟩⟩, ⟨⟨0⟩, ⟨0⟩, ⟨0⟩, ⟨4⟩⟩⟩ } ∧
      (Transformer.transformImpl demoEnvFull demoTfToLatLon demoPose zoneState).1 =
        some { header := ⟨5, ⟨7, 0⟩, "uav1/world".toList⟩
               pose := ⟨⟨⟨2⟩, ⟨1⟩, ⟨3⟩⟩, ⟨⟨0⟩, ⟨0⟩, ⟨0⟩, ⟨4⟩⟩⟩ } ∧
      (⟨⟨2⟩, ⟨1⟩, ⟨3⟩⟩ : Point).x = (demoEnv.UTMtoLL ⟨2⟩ ⟨1⟩ zoneState.self.utm_zone_).1 :=
  ⟨by decide, by decide,
    (transformImpl_geodetic_target_snapshot demoEnv demoEnvFull demoTfToLatLon demoPose zoneState
      { header := ⟨5, ⟨7, 0⟩, "uav1/world".toList⟩
        pose := ⟨⟨⟨2⟩, ⟨1⟩, ⟨3⟩⟩, ⟨⟨0⟩, ⟨0⟩, ⟨0⟩, ⟨4⟩⟩⟩ }
      { header := ⟨5, ⟨7, 0⟩, "uav1/world".toList⟩
        pose := ⟨⟨⟨2⟩, ⟨1⟩, ⟨3⟩⟩, ⟨⟨0⟩, ⟨0⟩, ⟨0⟩, ⟨4⟩⟩⟩ }
      (by decide) (by decide) (by decide) (by decide) (by decide)).1⟩

/-! ## C13: copying -/

/-- C13. The copy constructor and the copy assignment take over the control
frame and its flag, the node name, the vehicle name, the cache timeout and the
initialized flag of `other`, and leave the UTM zone registry out: a copy has
the zone absent and the zone buffer of a fresh object, an assigned-to object
keeps the zone registry it had. So a copy of the `uav1` object with zone
`33U` set has no zone, and so has a default-constructed object after that
object is assigned to it. -/
theorem copy_leaves_out_utm_zone (this other : Transformer) (timeout0 : Double) (zone0 : Zone) :
    ((Transformer.copy other timeout0 zone0).current_control_frame_ =
          other.current_control_frame_ ∧
        (Transformer.copy other timeout0 zone0).got_current_control_frame_ =
          other.got_current_control_frame_ ∧
        (Transformer.copy other timeout0 zone0).node_name_ = other.node_name_ ∧
        (Transformer.copy other timeout0 zone0).uav_name_ = other.uav_name_ ∧
        (Transformer.copy other timeout0 zone0).cache_timeout_ = other.cache_timeout_ ∧
        (Transformer.copy other timeout0 zone0).is_initialized_ = other.is_initialized_) ∧
      ((Transformer.assign this other).current_control_frame_ = other.current_control_frame_ ∧
        (Transformer.assign this other).got_current_control_frame_ =
          other.got_current_control_frame_ ∧
        (Transformer.assign this other).node_name_ = other.node_name_ ∧
        (Transformer.assign this other).uav_name_ = other.uav_name_ ∧
        (Transformer.assign this other).cache_timeout_ = other.cache_timeout_ ∧
        (Transformer.assign this other).is_initialized_ = other.is_initialized_) ∧
      ((Transformer.copy other timeout0 zone0).got_utm_zone_ = false ∧
        (Transformer.copy other timeout0 zone0).utm_zone_ = zone0 ∧
        (Transformer.assign this other).got_utm_zone_ = this.got_utm_zone_ ∧
        (Transformer.assign this other).utm_zone_ = this.utm_zone_) ∧
      (zoneState.self.got_utm_zone_ = true ∧
        zoneState.self.utm_zone_ = "33U".toList ∧
        (Transformer.copy zoneState.self Double.zero []).got_utm_zone_ = false ∧
        (Transformer.copy zoneState.self Double.zero []).utm_zone_ = [] ∧
        (Transformer.assign defaultState.self zoneState.self).got_utm_zone_ = false ∧
        (Transformer.assign defaultState.self zoneState.self).utm_zone_ = []) := by
  refine ⟨?_, ?_, ?_, by decide⟩
  · cases hi : other.is_initialized_ <;> simp [Transformer.copy, Transformer.members, hi]
  · cases hi : other.is_initialized_ <;> simp [Transformer.assign, hi]
  · cases hi : other.is_initialized_ <;>
      simp [Transformer.copy, Transformer.assign, Transformer.members, hi]

/-! ## C15: the safety zone -/

theorem anyInside_iff {α : Type} (isPointInside : α → Double → Double → Bool) (px py : Double)
    (l : List α) :
    anyInside isPointInside px py l = true ↔ ∃ e, e ∈ l ∧ isPointInside e px py = true := by
  induction l with
  | nil => simp [anyInside]
  | cons a rest ih =>
    by_cases ha : isPointInside a px py = true
    · simp [anyInside, ha]
    · simp [anyInside, ha, ih]

theorem anyInside_false_iff {α : Type} (isPointInside : α → Double → Double → Bool)
    (px py : Double) (l : List α) :
    anyInside isPointInside px py l = false ↔ ∀ e, e ∈ l → isPointInside e px py = false := by
  rw [← Bool.not_eq_true, anyInside_iff]
  simp

theorem isPointValid_characterised {Polygon PointObstacle : Type}
    (polygonInside : Polygon → Double → Double → Bool)
    (obstacleInside : PointObstacle → Double → Double → Bool)
    (z : SafetyZone Polygon PointObstacle) (px py : Double) :
    SafetyZone.isPointValid polygonInside obstacleInside z px py = true ↔
      polygonInside z.outerBorder px py = true ∧
        (∀ e, e ∈ z.innerObstacles → polygonInside e px py = false) ∧
        (∀ e, e ∈ z.pointObstacles → obstacleInside e px py = false) := by
  rw [← anyInside_false_iff, ← anyInside_false_iff]
  unfold SafetyZone.isPointValid
  cases polygonInside z.outerBorder px py <;>
    cases anyInside polygonInside px py z.innerObstacles <;>
    cases anyInside obstacleInside px py z.pointObstacles <;> simp

/-- C15. `isPointValid` is true exactly when the point is inside the outer
border, inside no inner obstacle and inside no point obstacle; with both
obstacle lists empty it is the border's `isPointInside`; and a point that is
not valid stays not valid in any zone with the same border whose obstacle
lists hold at least the same obstacles. -/
theorem isPointValid_spec {Polygon PointObstacle : Type}
    (polygonInside : Polygon → Double → Double → Bool)
    (obstacleInside : PointObstacle → Double → Double → Bool)
    (z z2 : SafetyZone Polygon PointObstacle) (px py : Double) :
    (SafetyZone.isPointValid polygonInside obstacleInside z px py = true ↔
        polygonInside z.outerBorder px py = true ∧
          (∀ e, e ∈ z.innerObstacles → polygonInside e px py = false) ∧
          (∀ e, e ∈ z.pointObstacles → obstacleInside e px py = false)) ∧
      (z.innerObstacles = [] → z.pointObstacles = [] →
        SafetyZone.isPointValid polygonInside obstacleInside z px py =
          polygonInside z.outerBorder px py) ∧
      (z2.outerBorder = z.outerBorder → z.innerObstacles ⊆ z2.innerObstacles →
        z.pointObstacles ⊆ z2.pointObstacles →
        SafetyZone.isPointValid polygonInside obstacleInside z px py = false →
        SafetyZone.isPointValid polygonInside obstacleInside z2 px py = false) := by
  refine ⟨isPointValid_characterised polygonInside obstacleInside z px py, ?_, ?_⟩
  · intro hi hp
    unfold SafetyZone.isPointValid
    rw [hi, hp]
    cases polygonInside z.outerBorder px py <;> simp [anyInside]
  · intro hb hi hp hz
    rw [← Bool.not_eq_true] at hz ⊢
    intro hv
    apply hz
    rw [isPointValid_characterised] at hv ⊢
    obtain ⟨h1, h2, h3⟩ := hv
    exact ⟨hb ▸ h1, fun e he => h2 e (hi he), fun e he => h3 e (hp he)⟩

/-- C15 on the interval zone: the point 4 lies in the inner obstacle and is
not valid, and it stays not valid when the obstacle `(1, 2)` is added; the
point 3 is valid. -/
theorem isPointValid_spec_witness :
    SafetyZone.isPointValid intervalInside pointInside demoZone ⟨4⟩ ⟨0⟩ = false ∧
      SafetyZone.isPointValid intervalInside pointInside
        { demoZone with innerObstacles := (1, 2) :: demoZone.innerObstacles } ⟨4⟩ ⟨0⟩ = false ∧
      SafetyZone.isPointValid intervalInside pointInside demoZone ⟨3⟩ ⟨0⟩ = true :=
  ⟨by decide,
    (isPointValid_spec intervalInside pointInside demoZone
      { demoZone with innerObstacles := (1, 2) :: demoZone.innerObstacles } ⟨4⟩ ⟨0⟩).2.2 rfl
      (List.subset_cons_self _ _) (List.Subset.refl _) (by decide),
    (isPointValid_spec intervalInside pointInside demoZone demoZone ⟨3⟩ ⟨0⟩).1.2
      ⟨by decide, by decide, by decide⟩⟩

end mrs_lib
